import Mathlib

/-!
Shallow embedding of `OleMacroDetector.py`, a five-strategy macro detector
for Office documents.

The Python program consults external capabilities: two command-line tools
(`olevba`, `oledump.py`) invoked via `subprocess.run`, the `olefile`
library (`isOleFile`, `OleFileIO`), the `oletools` VBA parser
(`VBA_Parser`, `detect_macros`, `close`) and the `zipfile` module
(`is_zipfile`, `ZipFile`).  We model the behaviour of those external calls
on the single file under test as a `World` of oracles: each oracle is an
`Option` whose `none` means "this Python call raised an exception" and
whose `some` carries what the call returned.  Each strategy of the source
is then translated statement by statement, with Python `try/except`
becoming a `match` on the corresponding oracle.
-/

/-- Byte signature `olefile.MAGIC = b'\xd0\xcf\x11\xe0\xa1\xb1\x1a\xe1'`
identifying an OLE compound file. -/
def OLE_MAGIC : List Nat := [0xD0, 0xCF, 0x11, 0xE0, 0xA1, 0xB1, 0x1A, 0xE1]

/-- A `VBA_Parser` handle: `detect_macros` is the outcome of calling
`vbaparser.detect_macros()` on it (`none` = that call raises). -/
structure VbaParser where
  detect_macros : Option Bool
  deriving DecidableEq

/-- One entry of a ZIP archive as the scanner sees it: its name from
`z.namelist()`, the byte content `z.open(name).read…` yields (`none` =
reading raises), and the outcome of `VBA_Parser(filename=name, data=…)`
on that content (`none` = the constructor raises). -/
structure ZipEntry where
  name : String
  content : Option (List Nat)
  vba : Option VbaParser
  deriving DecidableEq

/-- A ZIP archive opened by `zipfile.ZipFile`: the entries that
`z.namelist()` enumerates, in order. -/
structure ZipArchive where
  entries : List ZipEntry
  deriving DecidableEq

/-- An OLE directory opened by `olefile.OleFileIO`: `streams` lists the
names for which `ole.exists` answers `True`. -/
structure OleDir where
  streams : List String
  deriving DecidableEq

/-- The behaviour of every external call the program can make on the file
under test.  `none` always means "the Python call raised". -/
structure World where
  /-- `subprocess.run(['olevba', '-t', path]).stdout`. -/
  olevba : Option String
  /-- `subprocess.run(['oledump.py', path]).stdout`. -/
  oledump : Option String
  /-- `olefile.isOleFile(path)`. -/
  isOleFile : Option Bool
  /-- `olefile.OleFileIO(path)`. -/
  ole_open : Option OleDir
  /-- `VBA_Parser(path)`. -/
  vba : Option VbaParser
  /-- `zipfile.is_zipfile(path)`. -/
  is_zipfile : Option Bool
  /-- `zipfile.ZipFile(path)`. -/
  zip_open : Option ZipArchive
  deriving DecidableEq

/-! ### Python string primitives used by the adapters -/

/-- The characters Python `str.split()` (no argument) splits on. -/
def isPySpace (c : Char) : Bool :=
  c = ' ' || c = '\t' || c = '\n' || c = '\r' || c = '\x0b' || c = '\x0c'

/-- Python `str.lstrip()`: drop leading whitespace. -/
def lstrip (s : String) : String :=
  ⟨s.toList.dropWhile isPySpace⟩

/-- Python `str.lower()` (on the ASCII letters the program compares
against). -/
def pyLower (s : String) : String :=
  ⟨s.toList.map Char.toLower⟩

/-- Worker for `pySplit`, carrying the current token reversed. -/
def pyTokens : List Char → List Char → List String
  | [], acc => if acc.isEmpty then [] else [⟨acc.reverse⟩]
  | c :: rest, acc =>
      if isPySpace c then
        if acc.isEmpty then pyTokens rest []
        else (⟨acc.reverse⟩ : String) :: pyTokens rest []
      else pyTokens rest (c :: acc)

/-- Python `str.split()` with no argument: split on whitespace runs,
producing no empty tokens. -/
def pySplit (s : String) : List String :=
  pyTokens s.toList []

/-- Single-character line boundaries of Python `str.splitlines()`. -/
def isLineBoundary (c : Char) : Bool :=
  c = '\n' || c = '\r' || c = '\x0b' || c = '\x0c' || c = '\x1c' ||
  c = '\x1d' || c = '\x1e' || c = '\x85' || c = '\u2028' || c = '\u2029'

/-- Worker for `pySplitlines`, carrying the current line reversed. -/
def splitlinesAux : List Char → List Char → List String
  | [], acc => if acc.isEmpty then [] else [⟨acc.reverse⟩]
  | '\r' :: '\n' :: rest, acc => (⟨acc.reverse⟩ : String) :: splitlinesAux rest []
  | c :: rest, acc =>
      if isLineBoundary c then (⟨acc.reverse⟩ : String) :: splitlinesAux rest []
      else splitlinesAux rest (c :: acc)

/-- Python `str.splitlines()`. -/
def pySplitlines (s : String) : List String :=
  splitlinesAux s.toList []

/-- Python `needle in hay` on strings: substring containment. -/
def pyContains (hay needle : String) : Bool :=
  decide (needle.toList <:+: hay.toList)

/-! ### The five strategies -/

/-- `run_olevba_triage(path)`: run `olevba -t`, lowercase its stdout and
look for any of the keywords; any exception yields `False`. -/
def run_olevba_triage (w : World) : Bool :=
  match w.olevba with
  | none => false
  | some stdout =>
      let output := pyLower stdout
      pyContains output "macros" || pyContains output "autoexec" ||
        pyContains output "vba"

/-- `run_oledump_check(path)`: run `oledump.py` and report whether some
stdout line whose `lstrip().split()` has more than one token has second
token `m` after lowercasing; any exception yields `False`. -/
def run_oledump_check (w : World) : Bool :=
  match w.oledump with
  | none => false
  | some stdout =>
      (pySplitlines stdout).any fun line =>
        let toks := pySplit (lstrip line)
        decide (1 < toks.length) && pyLower (toks.getD 1 "") == "m"

/-- `check_excel97_macros(path)`: if `olefile.isOleFile`, open the file
with `OleFileIO` and test `exists('workbook') and
exists('_VBA_PROJECT_CUR')`; any exception falls through to `False`. -/
def check_excel97_macros (w : World) : Bool :=
  match w.isOleFile with
  | none => false
  | some false => false
  | some true =>
      match w.ole_open with
      | none => false
      | some ole => ole.streams.contains "workbook" &&
          ole.streams.contains "_VBA_PROJECT_CUR"

/-- `run_vba_parser(path)`: construct a `VBA_Parser`, call
`detect_macros()`, `close()`, and return the flag; any exception yields
`False`. -/
def run_vbaparser (w : World) : Bool :=
  match w.vba with
  | none => false
  | some vbaparser =>
      match vbaparser.detect_macros with
      | none => false
      | some has_macros => has_macros

/-- Body of the per-entry `try` block inside `scan_zip_for_macros`: read
`len(olefile.MAGIC)` bytes, and when they equal the magic, read the full
content, hand it to `VBA_Parser` and return `detect_macros()`; any
exception (unreadable entry, parser failure) makes the loop continue,
i.e. counts as `false` here. -/
def entryPositive (e : ZipEntry) : Bool :=
  match e.content with
  | none => false
  | some bs =>
      if bs.take OLE_MAGIC.length = OLE_MAGIC then
        match e.vba with
        | none => false
        | some vbaparser =>
            match vbaparser.detect_macros with
            | none => false
            | some has_macros => has_macros
      else false

/-- The `for subfile in z.namelist()` loop of `scan_zip_for_macros`:
return `True` at the first entry whose sub-scan finds macros, `False`
when the list is exhausted. -/
def scan_entries : List ZipEntry → Bool
  | [] => false
  | e :: rest => if entryPositive e then true else scan_entries rest

/-- `scan_zip_for_macros(path)`.  The guard `zipfile.is_zipfile(path)` is
called before the `try` block, so an exception there (for example a
missing file) propagates to the caller: result `none`.  A failure of
`zipfile.ZipFile` itself is caught by the outer `except` and the function
falls through to `return False`. -/
def scan_zip_for_macros (w : World) : Option Bool :=
  match w.is_zipfile with
  | none => none
  | some false => some false
  | some true =>
      match w.zip_open with
      | none => some false
      | some z => some (scan_entries z.entries)

/-! ### The orchestrator -/

/-- The `or`-chain of `main`: Python evaluates the five strategies left
to right and stops at the first `True`; only the last strategy can raise
(`none`). -/
def mainRun (w : World) : Option Bool :=
  if run_olevba_triage w then some true
  else if run_oledump_check w then some true
  else if check_excel97_macros w then some true
  else if run_vbaparser w then some true
  else scan_zip_for_macros w

/-- What `main` prints: `none` when an uncaught exception aborts the
process before printing. -/
def mainVerdict (w : World) : Option String :=
  (mainRun w).map (fun has_macros =>
    if has_macros then "MACROS_PRESENT" else "NO_MACROS")

/-! ### Instrumented variants

The temporal and resource claims are about which calls a run performs,
not only about its value.  The variants suffixed `T` compute the same
value together with a trace of observable events, by instrumenting the
very same control flow. -/

/-- Observable events: parser handle lifecycle, OLE directory handle
lifecycle, and the per-entry reads of the ZIP scanner. -/
inductive Ev where
  | vbaParserOpen
  | vbaParserClose
  | oleDirOpen
  | oleDirClose
  | magicRead (name : String) (count : Nat)
  | fullRead (name : String)
  | parseEntry (name : String)
  deriving DecidableEq

/-- `run_vba_parser` with its resource events: the handle is created by
`VBA_Parser(path)`, and `close()` runs only on the path where
`detect_macros()` returned normally — the bare `except` skips it. -/
def run_vbaparserT (w : World) : Bool × List Ev :=
  match w.vba with
  | none => (false, [])
  | some vbaparser =>
      match vbaparser.detect_macros with
      | none => (false, [Ev.vbaParserOpen])
      | some has_macros => (has_macros, [Ev.vbaParserOpen, Ev.vbaParserClose])

/-- `check_excel97_macros` with its resource events: `OleFileIO` creates
a handle and no statement of the function ever closes it. -/
def check_excel97_macrosT (w : World) : Bool × List Ev :=
  match w.isOleFile with
  | none => (false, [])
  | some false => (false, [])
  | some true =>
      match w.ole_open with
      | none => (false, [])
      | some ole => (ole.streams.contains "workbook" &&
          ole.streams.contains "_VBA_PROJECT_CUR", [Ev.oleDirOpen])

/-- Per-entry body of the ZIP scan with its read and parse events: the
first read requests exactly `len(olefile.MAGIC)` bytes, the full read
and the parser construction happen only behind the magic comparison. -/
def entryT (e : ZipEntry) : Bool × List Ev :=
  match e.content with
  | none => (false, [])
  | some bs =>
      if bs.take OLE_MAGIC.length = OLE_MAGIC then
        match e.vba with
        | none => (false, [Ev.magicRead e.name OLE_MAGIC.length,
            Ev.fullRead e.name])
        | some vbaparser =>
            match vbaparser.detect_macros with
            | none => (false, [Ev.magicRead e.name OLE_MAGIC.length,
                Ev.fullRead e.name, Ev.parseEntry e.name])
            | some has_macros => (has_macros,
                [Ev.magicRead e.name OLE_MAGIC.length,
                 Ev.fullRead e.name, Ev.parseEntry e.name])
      else (false, [Ev.magicRead e.name OLE_MAGIC.length])

/-- The scanner loop with events: it stops appending entry traces at the
first positive entry. -/
def scan_entriesT : List ZipEntry → Bool × List Ev
  | [] => (false, [])
  | e :: rest =>
      let r := entryT e
      if r.1 then (true, r.2)
      else
        let rr := scan_entriesT rest
        (rr.1, r.2 ++ rr.2)

/-- The five strategies, in the order `main` consults them. -/
inductive Strat where
  | triage
  | oledump
  | excel97
  | vbaParser
  | zipScan
  deriving DecidableEq

/-- `main`'s `or`-chain with the list of strategies it actually ran. -/
def mainT (w : World) : Option Bool × List Strat :=
  if run_olevba_triage w then (some true, [Strat.triage])
  else if run_oledump_check w then (some true, [Strat.triage, Strat.oledump])
  else if check_excel97_macros w then
    (some true, [Strat.triage, Strat.oledump, Strat.excel97])
  else if run_vbaparser w then
    (some true, [Strat.triage, Strat.oledump, Strat.excel97, Strat.vbaParser])
  else (scan_zip_for_macros w,
    [Strat.triage, Strat.oledump, Strat.excel97, Strat.vbaParser, Strat.zipScan])

/-! ### Concrete worlds

Concrete behaviours of the external calls, used to evaluate the
strategies on explicit inputs.  Each models a realistic file/environment
combination described in its doc comment. -/

/-- A clean readable file: both tools run and print nothing relevant,
the file is neither OLE nor ZIP, and the VBA parser rejects it. -/
def wBenign : World :=
  { olevba := some "", oledump := some "", isOleFile := some false,
    ole_open := none, vba := none, is_zipfile := some false,
    zip_open := none }

/-- A file that `VBA_Parser` opens but on which `detect_macros()`
raises. -/
def wDetRaise : World := { wBenign with vba := some ⟨none⟩ }

/-- A file that `VBA_Parser` opens and scans completely, finding no
macros. -/
def wNegParse : World := { wBenign with vba := some ⟨some false⟩ }

/-- An Excel 97 workbook with a VBA project, in an environment where
both external tools are missing (`subprocess.run` raises
`FileNotFoundError`) and the VBA parser also fails. -/
def wExcelPos : World :=
  { olevba := none, oledump := none, isOleFile := some true,
    ole_open := some ⟨["workbook", "_VBA_PROJECT_CUR"]⟩, vba := none,
    is_zipfile := some false, zip_open := none }

/-- An OLE workbook without a VBA project stream. -/
def wWorkbookOnly : World :=
  { wBenign with
    isOleFile := some true
    ole_open := some ⟨["workbook"]⟩ }

/-- A file on which the triage tool reports macros. -/
def wTriagePos : World := { wBenign with olevba := some "VBA Macros found" }

/-- A file on which only the VBA parser finds macros. -/
def wVbaPos : World := { wBenign with vba := some ⟨some true⟩ }

/-- A path that does not exist: the two tools run but print errors, and
every per-file library call (`isOleFile`, `OleFileIO`, `VBA_Parser`,
`is_zipfile`, `ZipFile`) raises `FileNotFoundError`. -/
def wMissing : World :=
  { olevba := some "", oledump := some "", isOleFile := none,
    ole_open := none, vba := none, is_zipfile := none, zip_open := none }

/-- A readable ZIP file in an environment where every strategy-internal
call fails: both tools are missing, `isOleFile` and `VBA_Parser` raise,
and `ZipFile` fails to open the archive. -/
def wAllFail : World :=
  { olevba := none, oledump := none, isOleFile := none, ole_open := none,
    vba := none, is_zipfile := some true, zip_open := none }

/-- A ZIP entry that is not OLE-signed (starts with the PK bytes). -/
def entNonOle : ZipEntry := ⟨"word/document.xml", some [0x50, 0x4B], none⟩

/-- A ZIP entry whose content cannot be read (corrupt/encrypted). -/
def entBad : ZipEntry := ⟨"bad.bin", none, none⟩

/-- An OLE-signed ZIP entry in which the VBA parser finds macros. -/
def entOlePos : ZipEntry :=
  ⟨"oleObject1.bin", some (OLE_MAGIC ++ [0x00, 0x00]), some ⟨some true⟩⟩

/-- A further OLE-signed entry placed after the positive one. -/
def entAfter : ZipEntry := ⟨"oleObject2.bin", some OLE_MAGIC, some ⟨some true⟩⟩

/-- An archive with a non-OLE entry, an unreadable entry, a positive OLE
entry and one more entry after it. -/
def zDemo : ZipArchive := ⟨[entNonOle, entBad, entOlePos, entAfter]⟩

/-- A readable ZIP file whose archive opens to `zDemo` and on which all
other strategies are negative. -/
def wZipDemo : World :=
  { wBenign with is_zipfile := some true, zip_open := some zDemo }

/-- A file for which `oledump.py` prints one data stream and one macro
stream. -/
def wDumpM : World :=
  { wBenign with oledump := some "  1:       114 CompObj\n  2: M     9852 VBA/Module1" }

/-- A file for which `oledump.py` prints only a one-token banner line. -/
def wDumpShort : World := { wBenign with oledump := some "header\n" }

/-! ### Agreement of the instrumented variants with the plain ones -/

/-- The instrumented entry scan computes the same boolean. -/
theorem entryT_fst (e : ZipEntry) : (entryT e).1 = entryPositive e := by
  rcases e with ⟨name, content, vba⟩
  rcases content with _ | bs
  · rfl
  · rcases vba with _ | ⟨det⟩
    · simp only [entryT, entryPositive]
      split <;> rfl
    · rcases det with _ | b <;>
        · simp only [entryT, entryPositive]
          split <;> rfl

/-- The instrumented loop computes the same boolean. -/
theorem scan_entriesT_fst (l : List ZipEntry) :
    (scan_entriesT l).1 = scan_entries l := by
  induction l with
  | nil => rfl
  | cons e rest ih =>
      by_cases h : entryPositive e = true
      · simp [scan_entriesT, scan_entries, entryT_fst, h]
      · simp only [Bool.not_eq_true] at h
        simp [scan_entriesT, scan_entries, entryT_fst, h, ih]

/-- The instrumented orchestrator computes the same outcome. -/
theorem mainT_fst (w : World) : (mainT w).1 = mainRun w := by
  unfold mainT mainRun
  split <;> try rfl
  split <;> try rfl
  split <;> try rfl
  split <;> rfl

/-! ### Helper lemmas -/

/-- When `zipfile.is_zipfile` returns (rather than raises), the ZIP
scanner always returns a boolean. -/
theorem scan_zip_completes (w : World) (b : Bool) (h : w.is_zipfile = some b) :
    ∃ r, scan_zip_for_macros w = some r := by
  unfold scan_zip_for_macros
  rw [h]
  cases b
  · exact ⟨false, rfl⟩
  · cases hz : w.zip_open with
    | none => exact ⟨false, rfl⟩
    | some z => exact ⟨scan_entries z.entries, rfl⟩

/-! ### Claim theorems -/

/-- Claim C9: the External Triage Adapter returns POSITIVE exactly when a
case-insensitive substring search finds `macros`, `autoexec` or `vba` in
the captured standard output of the external triage tool. -/
theorem olevba_triage_iff_keyword (w : World) :
    run_olevba_triage w = true ↔
      ∃ out, w.olevba = some out ∧
        ("macros".toList <:+: (pyLower out).toList ∨
         "autoexec".toList <:+: (pyLower out).toList ∨
         "vba".toList <:+: (pyLower out).toList) := by
  rcases w with ⟨ov, od, iso, oo, vb, iz, zo⟩
  rcases ov with _ | out
  · simp [run_olevba_triage]
  · simp [run_olevba_triage, pyContains, or_assoc]

/-- Claim C7: the OLE Structural Checker is POSITIVE exactly when
`isOleFile` holds, the directory opens, and both the `workbook` and the
`_VBA_PROJECT_CUR` streams exist; with a workbook stream but no
VBA-project stream it returns the same `False` as a negative scan. -/
theorem excel97_iff_both_streams (w : World) :
    (check_excel97_macros w = true ↔
      w.isOleFile = some true ∧ ∃ d, w.ole_open = some d ∧
        "workbook" ∈ d.streams ∧ "_VBA_PROJECT_CUR" ∈ d.streams) ∧
    (∀ d, w.ole_open = some d → "workbook" ∈ d.streams →
      "_VBA_PROJECT_CUR" ∉ d.streams → check_excel97_macros w = false) := by
  rcases w with ⟨ov, od, iso, oo, vb, iz, zo⟩
  constructor
  · rcases iso with _ | b
    · simp [check_excel97_macros]
    · cases b
      · simp [check_excel97_macros]
      · rcases oo with _ | d
        · simp [check_excel97_macros]
        · simp [check_excel97_macros]
  · intro d hd hw hnv
    rcases iso with _ | b
    · simp [check_excel97_macros]
    · cases b
      · simp [check_excel97_macros]
      · cases hd
        simp [check_excel97_macros, hnv]

/-- Claim C7 witness: a concrete OLE workbook without a VBA-project
stream makes the structural checker answer `false`. -/
theorem excel97_iff_both_streams_witness :
    check_excel97_macros wWorkbookOnly = false :=
  (excel97_iff_both_streams wWorkbookOnly).2 ⟨["workbook"]⟩ rfl (by decide)
    (by decide)

/-- Claim C4: with both external tools unavailable, an OLE file carrying
both the workbook and the VBA-project streams still scans as
`MACROS_PRESENT`. -/
theorem fault_isolation_structural (w : World) (d : OleDir)
    (h1 : w.olevba = none) (h2 : w.oledump = none)
    (h3 : w.isOleFile = some true) (h4 : w.ole_open = some d)
    (h5 : "workbook" ∈ d.streams) (h6 : "_VBA_PROJECT_CUR" ∈ d.streams) :
    mainVerdict w = some "MACROS_PRESENT" := by
  have htri : run_olevba_triage w = false := by
    simp [run_olevba_triage, h1]
  have hdump : run_oledump_check w = false := by
    simp [run_oledump_check, h2]
  have hexc : check_excel97_macros w = true := by
    simp [check_excel97_macros, h3, h4, h5, h6]
  simp [mainVerdict, mainRun, htri, hdump, hexc]

/-- Claim C4 witness: the concrete broken-tools Excel world scans as
`MACROS_PRESENT`. -/
theorem fault_isolation_structural_witness :
    mainVerdict wExcelPos = some "MACROS_PRESENT" :=
  fault_isolation_structural wExcelPos ⟨["workbook", "_VBA_PROJECT_CUR"]⟩
    rfl rfl rfl rfl (by decide) (by decide)

/-- Claim C5 counterexample: a strategy run that could not complete
(`detect_macros()` raises, world `wDetRaise`) and a strategy run that
completed finding nothing (`wNegParse`) produce the very same result
value `false` — the boolean result type does not distinguish
INCONCLUSIVE from NEGATIVE. -/
theorem strategy_result_not_distinguishable :
    run_vbaparser wDetRaise = run_vbaparser wNegParse ∧
    run_vbaparser wDetRaise = false :=
  ⟨rfl, rfl⟩

/-- Claim C5 (amended): a strategy that cannot complete returns the same
plain `false` as one that completed and found nothing, so the
orchestrator aggregates the two identically; nothing in the returned
value distinguishes them. -/
theorem inconclusive_collapses_to_false (w : World) :
    (w.olevba = none → run_olevba_triage w = false) ∧
    (w.oledump = none → run_oledump_check w = false) ∧
    (w.isOleFile = none → check_excel97_macros w = false) ∧
    (w.vba = none → run_vbaparser w = false) ∧
    (∀ p, w.vba = some p → p.detect_macros = none →
      run_vbaparser w = false) ∧
    (w.is_zipfile = some true → w.zip_open = none →
      scan_zip_for_macros w = some false) := by
  refine ⟨?_, ?_, ?_, ?_, ?_, ?_⟩
  · intro h; simp [run_olevba_triage, h]
  · intro h; simp [run_oledump_check, h]
  · intro h; simp [check_excel97_macros, h]
  · intro h; simp [run_vbaparser, h]
  · intro p hp hdet; simp [run_vbaparser, hp, hdet]
  · intro h1 h2; simp [scan_zip_for_macros, h1, h2]

/-- Claim C5 (amended) witness: in the world where every strategy-level
call fails, and in the world where only `detect_macros()` raises, the
failing strategies all produce `false` (the scanner `some false`). -/
theorem inconclusive_collapses_to_false_witness :
    run_olevba_triage wAllFail = false ∧
    run_oledump_check wAllFail = false ∧
    check_excel97_macros wAllFail = false ∧
    run_vbaparser wAllFail = false ∧
    run_vbaparser wDetRaise = false ∧
    scan_zip_for_macros wAllFail = some false :=
  ⟨(inconclusive_collapses_to_false wAllFail).1 rfl,
   (inconclusive_collapses_to_false wAllFail).2.1 rfl,
   (inconclusive_collapses_to_false wAllFail).2.2.1 rfl,
   (inconclusive_collapses_to_false wAllFail).2.2.2.1 rfl,
   (inconclusive_collapses_to_false wDetRaise).2.2.2.2.1 ⟨none⟩ rfl rfl,
   (inconclusive_collapses_to_false wAllFail).2.2.2.2.2 rfl rfl⟩

/-- Claim C6: the code violates it.  On a file where `VBA_Parser(path)`
succeeds but `detect_macros()` raises, the bare `except` returns without
running `vbaparser.close()`: the trace contains the open event and no
close event.  Moreover `check_excel97_macros` never closes its
`OleFileIO` handle even on a fully successful run. -/
theorem vbaparser_close_skipped_on_raise :
    run_vbaparserT wDetRaise = (false, [Ev.vbaParserOpen]) ∧
    Ev.vbaParserClose ∉ (run_vbaparserT wDetRaise).2 ∧
    (check_excel97_macrosT wExcelPos).1 = true ∧
    Ev.oleDirOpen ∈ (check_excel97_macrosT wExcelPos).2 ∧
    Ev.oleDirClose ∉ (check_excel97_macrosT wExcelPos).2 := by
  refine ⟨rfl, by decide, by decide, by decide, by decide⟩

/-- Claim C8: the External Stream-Marker Adapter is POSITIVE exactly when
some stdout line of the dumper has a second whitespace token equal to
`m` case-insensitively; lines with fewer than two tokens never make the
check fail, they are skipped. -/
theorem oledump_iff_marker (w : World) :
    (run_oledump_check w = true ↔
      ∃ out, w.oledump = some out ∧ ∃ line ∈ pySplitlines out,
        1 < (pySplit (lstrip line)).length ∧
        pyLower ((pySplit (lstrip line)).getD 1 "") = "m") ∧
    (∀ out, w.oledump = some out →
      (∀ line ∈ pySplitlines out, (pySplit (lstrip line)).length ≤ 1) →
      run_oledump_check w = false) := by
  rcases w with ⟨ov, od, iso, oo, vb, iz, zo⟩
  constructor
  · rcases od with _ | out
    · simp [run_oledump_check]
    · simp [run_oledump_check, List.any_eq_true]
  · intro out hout hshort
    rcases od with _ | stdout
    · exact absurd hout (by simp)
    · obtain rfl : stdout = out := by injection hout
      simp only [run_oledump_check, List.any_eq_false]
      intro line hline
      have hlen := hshort line hline
      simp only [Bool.and_eq_true, decide_eq_true_eq, beq_iff_eq, not_and]
      intro h1
      exact absurd h1 (by omega)

/-- Claim C8 witness: a dump with a second-column `M` line is positive; a
dump whose only line has a single token is negative. -/
theorem oledump_iff_marker_witness :
    run_oledump_check wDumpM = true ∧ run_oledump_check wDumpShort = false :=
  ⟨(oledump_iff_marker wDumpM).1.mpr
     ⟨"  1:       114 CompObj\n  2: M     9852 VBA/Module1", rfl,
      "  2: M     9852 VBA/Module1", by decide, by decide, by decide⟩,
   (oledump_iff_marker wDumpShort).2 "header\n" rfl (by decide)⟩

/-- Claim C3: the code violates it.  For a path that does not exist,
`zipfile.is_zipfile` — called before the `try` block of
`scan_zip_for_macros` — raises `FileNotFoundError`; the exception leaves
the fifth strategy, reaches the orchestrator, and aborts `main` without
printing, and only after the four other strategies already ran. -/
theorem missing_file_exception_escapes :
    scan_zip_for_macros wMissing = none ∧
    mainVerdict wMissing = none ∧
    (mainT wMissing).2 = [Strat.triage, Strat.oledump, Strat.excel97,
      Strat.vbaParser, Strat.zipScan] :=
  ⟨rfl, by decide, by decide⟩

/-- Claim C2: the orchestrator consults the strategies in the fixed
order triage, stream-marker, structural, VBA parser, nested scanner
(its trace is a prefix of that list), and when the triage adapter is
positive the run stops there — the nested container scanner is never
executed. -/
theorem orchestrator_fixed_order (w : World) :
    (mainT w).2 <+: [Strat.triage, Strat.oledump, Strat.excel97,
      Strat.vbaParser, Strat.zipScan] ∧
    (run_olevba_triage w = true →
      (mainT w).2 = [Strat.triage] ∧ Strat.zipScan ∉ (mainT w).2) ∧
    (run_olevba_triage w = false → run_oledump_check w = true →
      (mainT w).2 = [Strat.triage, Strat.oledump]) ∧
    (run_olevba_triage w = false → run_oledump_check w = false →
      check_excel97_macros w = true →
      (mainT w).2 = [Strat.triage, Strat.oledump, Strat.excel97]) ∧
    (run_olevba_triage w = false → run_oledump_check w = false →
      check_excel97_macros w = false → run_vbaparser w = true →
      (mainT w).2 = [Strat.triage, Strat.oledump, Strat.excel97,
        Strat.vbaParser]) ∧
    (run_olevba_triage w = false → run_oledump_check w = false →
      check_excel97_macros w = false → run_vbaparser w = false →
      (mainT w).2 = [Strat.triage, Strat.oledump, Strat.excel97,
        Strat.vbaParser, Strat.zipScan]) := by
  refine ⟨?_, ?_, ?_, ?_, ?_, ?_⟩
  · unfold mainT
    split_ifs <;> exact ⟨_, rfl⟩
  · intro h
    unfold mainT
    simp [h]
  · intro h1 h2
    unfold mainT
    simp [h1, h2]
  · intro h1 h2 h3
    unfold mainT
    simp [h1, h2, h3]
  · intro h1 h2 h3 h4
    unfold mainT
    simp [h1, h2, h3, h4]
  · intro h1 h2 h3 h4
    unfold mainT
    simp [h1, h2, h3, h4]

/-- Claim C2 witness: the trace stops right after the first positive
strategy on concrete files positive for each strategy in turn, and on
the triage-positive file no ZIP scan appears. -/
theorem orchestrator_fixed_order_witness :
    (mainT wTriagePos).2 <+: [Strat.triage, Strat.oledump, Strat.excel97,
      Strat.vbaParser, Strat.zipScan] ∧
    ((mainT wTriagePos).2 = [Strat.triage] ∧
      Strat.zipScan ∉ (mainT wTriagePos).2) ∧
    (mainT wDumpM).2 = [Strat.triage, Strat.oledump] ∧
    (mainT wExcelPos).2 = [Strat.triage, Strat.oledump, Strat.excel97] ∧
    (mainT wVbaPos).2 = [Strat.triage, Strat.oledump, Strat.excel97,
      Strat.vbaParser] ∧
    (mainT wBenign).2 = [Strat.triage, Strat.oledump, Strat.excel97,
      Strat.vbaParser, Strat.zipScan] :=
  ⟨(orchestrator_fixed_order wTriagePos).1,
   (orchestrator_fixed_order wTriagePos).2.1 (by decide),
   (orchestrator_fixed_order wDumpM).2.2.1 (by decide) (by decide),
   (orchestrator_fixed_order wExcelPos).2.2.2.1 rfl rfl (by decide),
   (orchestrator_fixed_order wVbaPos).2.2.2.2.1 (by decide) (by decide)
     (by decide) rfl,
   (orchestrator_fixed_order wBenign).2.2.2.2.2 (by decide) (by decide)
     (by decide) rfl⟩

/-- Claim C1: for every file on which the ZIP probe completes (every
readable regular file), the printed verdict is `MACROS_PRESENT` exactly
when at least one of the five strategies is positive, and `NO_MACROS`
exactly otherwise. -/
theorem verdict_is_or_of_strategies (w : World) (b : Bool)
    (h : w.is_zipfile = some b) :
    (mainVerdict w = some "MACROS_PRESENT" ↔
      (run_olevba_triage w = true ∨ run_oledump_check w = true ∨
       check_excel97_macros w = true ∨ run_vbaparser w = true ∨
       scan_zip_for_macros w = some true)) ∧
    (mainVerdict w = some "NO_MACROS" ↔
      ¬(run_olevba_triage w = true ∨ run_oledump_check w = true ∨
        check_excel97_macros w = true ∨ run_vbaparser w = true ∨
        scan_zip_for_macros w = some true)) := by
  obtain ⟨r, hr⟩ := scan_zip_completes w b h
  unfold mainVerdict mainRun
  split_ifs with h1 h2 h3 h4
  · simp [h1]
  · simp [h1, h2]
  · simp [h1, h2, h3]
  · simp [h1, h2, h3, h4]
  · rw [hr]
    cases r
    · simp [h1, h2, h3, h4, hr]
    · simp [h1, h2, h3, h4, hr]

/-- Claim C1 witness: the clean readable file prints `NO_MACROS`. -/
theorem verdict_is_or_of_strategies_witness :
    mainVerdict wBenign = some "NO_MACROS" :=
  ((verdict_is_or_of_strategies wBenign false rfl).2).mpr (by decide)

/-- The loop result is positivity of some entry. -/
theorem scan_entries_eq_any (l : List ZipEntry) :
    scan_entries l = l.any entryPositive := by
  induction l with
  | nil => rfl
  | cons e rest ih => cases hp : entryPositive e <;> simp [scan_entries, hp, ih]

/-- A parse event in an entry trace pins down the entry name and forces
its content to begin with the OLE magic. -/
theorem parseEntry_mem_entryT (e : ZipEntry) (n : String)
    (h : Ev.parseEntry n ∈ (entryT e).2) :
    e.name = n ∧ ∃ bs, e.content = some bs ∧
      bs.take OLE_MAGIC.length = OLE_MAGIC := by
  rcases e with ⟨name, content, vba⟩
  rcases content with _ | bs
  · simp [entryT] at h
  · by_cases hm : bs.take OLE_MAGIC.length = OLE_MAGIC
    · rcases vba with _ | ⟨det⟩
      · simp [entryT, hm] at h
      · rcases det with _ | b
        · simp [entryT, hm] at h
          subst h
          exact ⟨rfl, bs, rfl, hm⟩
        · simp [entryT, hm] at h
          subst h
          exact ⟨rfl, bs, rfl, hm⟩
    · simp [entryT, hm] at h

/-- Every read-magic event of an entry trace requests exactly
`len(olefile.MAGIC)` bytes. -/
theorem magicRead_len_entryT (e : ZipEntry) (n : String) (c : Nat)
    (h : Ev.magicRead n c ∈ (entryT e).2) : c = OLE_MAGIC.length := by
  rcases e with ⟨name, content, vba⟩
  rcases content with _ | bs
  · simp [entryT] at h
  · by_cases hm : bs.take OLE_MAGIC.length = OLE_MAGIC
    · rcases vba with _ | ⟨det⟩
      · simp [entryT, hm] at h
        exact h.2
      · rcases det with _ | b <;>
          · simp [entryT, hm] at h
            exact h.2
    · simp [entryT, hm] at h
      exact h.2

/-- Every event of the loop trace comes from some entry of the list. -/
theorem ev_mem_scan_entriesT (l : List ZipEntry) (ev : Ev)
    (h : ev ∈ (scan_entriesT l).2) : ∃ e ∈ l, ev ∈ (entryT e).2 := by
  induction l with
  | nil => simp [scan_entriesT] at h
  | cons e rest ih =>
      simp only [scan_entriesT] at h
      by_cases hp : (entryT e).1 = true
      · rw [if_pos hp] at h
        exact ⟨e, List.mem_cons_self e rest, h⟩
      · rw [if_neg hp] at h
        rcases List.mem_append.mp h with h1 | h2
        · exact ⟨e, List.mem_cons_self e rest, h1⟩
        · obtain ⟨e', he', hev⟩ := ih h2
          exact ⟨e', List.mem_cons_of_mem e he', hev⟩

/-- Once the loop reaches a positive entry after only negative ones, it
returns: the entries after it contribute nothing to result or trace. -/
theorem scan_entriesT_short_circuit (l₁ : List ZipEntry) (e : ZipEntry)
    (l₂ : List ZipEntry) (hneg : ∀ x ∈ l₁, entryPositive x = false)
    (hpos : entryPositive e = true) :
    scan_entriesT (l₁ ++ e :: l₂) = scan_entriesT (l₁ ++ [e]) := by
  induction l₁ with
  | nil =>
      simp only [List.nil_append]
      simp [scan_entriesT, entryT_fst, hpos]
  | cons a l ih =>
      have ha : entryPositive a = false := hneg a (List.mem_cons_self a l)
      simp only [List.cons_append]
      simp [scan_entriesT, entryT_fst, ha,
        ih (fun x hx => hneg x (List.mem_cons_of_mem a hx))]

/-- Claim C10: over an opened archive the scanner is positive exactly
when some entry is positive (entries that are unreadable or not
OLE-signed are skipped, without aborting the rest); the VBA parser is
applied only to entries whose content begins with the OLE magic; each
magic probe reads exactly `len(olefile.MAGIC)` bytes; after the first
positive entry no further entry is touched; and a failing archive open
gives `False` rather than an exception. -/
theorem nested_scanner_contract (w : World) :
    (∀ z, w.is_zipfile = some true → w.zip_open = some z →
      ((scan_zip_for_macros w = some true ↔
          ∃ e ∈ z.entries, entryPositive e = true) ∧
       (∀ n, Ev.parseEntry n ∈ (scan_entriesT z.entries).2 →
          ∃ e ∈ z.entries, e.name = n ∧ ∃ bs, e.content = some bs ∧
            bs.take OLE_MAGIC.length = OLE_MAGIC) ∧
       (∀ n c, Ev.magicRead n c ∈ (scan_entriesT z.entries).2 →
          c = OLE_MAGIC.length) ∧
       (∀ l₁ e l₂, z.entries = l₁ ++ e :: l₂ →
          (∀ x ∈ l₁, entryPositive x = false) → entryPositive e = true →
          scan_entriesT z.entries = scan_entriesT (l₁ ++ [e])))) ∧
    (w.is_zipfile = some true → w.zip_open = none →
      scan_zip_for_macros w = some false) := by
  constructor
  · intro z h1 h2
    have hs : scan_zip_for_macros w = some (scan_entries z.entries) := by
      simp [scan_zip_for_macros, h1, h2]
    refine ⟨?_, ?_, ?_, ?_⟩
    · rw [hs]
      simp [scan_entries_eq_any, List.any_eq_true]
    · intro n h
      obtain ⟨e, he, hev⟩ := ev_mem_scan_entriesT z.entries _ h
      obtain ⟨hn, hbs⟩ := parseEntry_mem_entryT e n hev
      exact ⟨e, he, hn, hbs⟩
    · intro n c h
      obtain ⟨e, _, hev⟩ := ev_mem_scan_entriesT z.entries _ h
      exact magicRead_len_entryT e n c hev
    · intro l₁ e l₂ hsplit hneg hpos
      rw [hsplit]
      exact scan_entriesT_short_circuit l₁ e l₂ hneg hpos
  · intro h1 h2
    simp [scan_zip_for_macros, h1, h2]

/-- Claim C10 witness: on the concrete archive — a non-OLE entry, an
unreadable entry, a positive OLE entry, then one more entry — the scan
is positive, the trace stops at the positive entry, and the same world
with a failing archive open scans to `False`. -/
theorem nested_scanner_contract_witness :
    scan_zip_for_macros wZipDemo = some true ∧
    scan_entriesT zDemo.entries = scan_entriesT [entNonOle, entBad, entOlePos] ∧
    scan_zip_for_macros { wZipDemo with zip_open := none } = some false :=
  ⟨((nested_scanner_contract wZipDemo).1 zDemo rfl rfl).1.mpr
     ⟨entOlePos, by decide, by decide⟩,
   ((nested_scanner_contract wZipDemo).1 zDemo rfl rfl).2.2.2
     [entNonOle, entBad] entOlePos [entAfter] rfl (by decide) (by decide),
   (nested_scanner_contract { wZipDemo with zip_open := none }).2 rfl rfl⟩
